import Mathlib

/-!
Verification of the Externa order-execution engine against its
natural-language specification.  Each section embeds the relevant
TypeScript source (models/enums.ts, utils/wsolHandler.ts,
services/dex/MockDexRouter.ts, services/dex/MockSwapExecutor.ts,
services/dex/DexService.ts, database/repository.ts,
services/cache/CacheService.ts, services/order/OrderService.ts,
api/schemas.ts, api/routes/orders.ts, queue/orderProcessor.ts) as
executable Lean definitions, and the
theorems at the end settle the specification claims.

Numbers that are IEEE doubles in the source are modelled as rationals;
timestamps as naturals; JavaScript division by zero (which yields
NaN/Infinity, making every `<=` comparison false) is modelled by an
explicit zero-denominator guard where it matters.
-/

/-! ### models/enums.ts -/

inductive OrderStatus where
  | pending
  | routing
  | building
  | submitted
  | confirmed
  | failed
deriving DecidableEq

inductive OrderType where
  | market
  | limit
  | sniper
deriving DecidableEq

inductive DEXProvider where
  | raydium
  | meteora
deriving DecidableEq

/-! ### utils/wsolHandler.ts -/

def NATIVE_SOL_ADDRESS : String := "11111111111111111111111111111111"

def WRAPPED_SOL_ADDRESS : String := "So11111111111111111111111111111111111111112"

namespace WrappedSolHandler

def isNativeSol (tokenAddress : String) : Bool :=
  tokenAddress = NATIVE_SOL_ADDRESS

def isWrappedSol (tokenAddress : String) : Bool :=
  tokenAddress = WRAPPED_SOL_ADDRESS

def normalizeTokenAddress (tokenAddress : String) : String :=
  if isNativeSol tokenAddress then WRAPPED_SOL_ADDRESS else tokenAddress

structure PairValidation where
  isValid : Bool
  errors : List String
deriving DecidableEq

def validateTokenAddresses (tokenIn tokenOut : String) : PairValidation :=
  let sameErr : List String :=
    if tokenIn = tokenOut then ["Input and output tokens cannot be the same"] else []
  let normalizedIn := normalizeTokenAddress tokenIn
  let normalizedOut := normalizeTokenAddress tokenOut
  let wsolErr : List String :=
    if normalizedIn = normalizedOut ∧ normalizedIn = WRAPPED_SOL_ADDRESS then
      ["Cannot swap between SOL and WSOL (they represent the same asset)"]
    else []
  let errors := sameErr ++ wsolErr
  { isValid := errors.isEmpty, errors := errors }

theorem native_ne_wrapped : NATIVE_SOL_ADDRESS ≠ WRAPPED_SOL_ADDRESS := by
  decide

theorem normalizeTokenAddress_idem (a : String) :
    normalizeTokenAddress (normalizeTokenAddress a) = normalizeTokenAddress a := by
  unfold normalizeTokenAddress isNativeSol
  by_cases h : a = NATIVE_SOL_ADDRESS <;> simp [h, native_ne_wrapped.symm]

theorem normalize_eq_iff (a b : String) :
    normalizeTokenAddress a = normalizeTokenAddress b ↔
      a = b ∨ (normalizeTokenAddress a = WRAPPED_SOL_ADDRESS ∧
               normalizeTokenAddress b = WRAPPED_SOL_ADDRESS) := by
  constructor
  · intro h
    by_cases ha : a = NATIVE_SOL_ADDRESS
    · refine Or.inr ⟨?_, ?_⟩
      · simp [normalizeTokenAddress, isNativeSol, ha]
      · rw [← h]; simp [normalizeTokenAddress, isNativeSol, ha]
    · by_cases hb : b = NATIVE_SOL_ADDRESS
      · refine Or.inr ⟨?_, ?_⟩
        · rw [h]; simp [normalizeTokenAddress, isNativeSol, hb]
        · simp [normalizeTokenAddress, isNativeSol, hb]
      · left
        simpa [normalizeTokenAddress, isNativeSol, ha, hb] using h
  · rintro (h | ⟨h1, h2⟩)
    · rw [h]
    · rw [h1, h2]

theorem validateTokenAddresses_fails_iff (a b : String) :
    (validateTokenAddresses a b).isValid = false ↔
      (normalizeTokenAddress a = normalizeTokenAddress b ∨ a = b) := by
  unfold validateTokenAddresses
  by_cases hab : a = b
  · simp [hab]
  · by_cases hn : normalizeTokenAddress a = normalizeTokenAddress b
    · have hw : normalizeTokenAddress a = WRAPPED_SOL_ADDRESS := by
        rcases (normalize_eq_iff a b).mp hn with h | ⟨h, -⟩
        · exact absurd h hab
        · exact h
      have hw2 : normalizeTokenAddress b = WRAPPED_SOL_ADDRESS := hn ▸ hw
      simp [hab, hn, hw, hw2]
    · simp [hab, hn]

end WrappedSolHandler

/-! ### models/DEXQuote.ts -/

structure DEXQuote where
  provider : DEXProvider
  tokenIn : String
  tokenOut : String
  amountIn : ℚ
  amountOut : ℚ
  price : ℚ
  fee : ℚ
  priceImpact : ℚ
  timestamp : ℕ
deriving DecidableEq

structure SwapResult where
  success : Bool
  txHash : String
  executedPrice : ℚ
  amountOut : ℚ
  actualSlippage : ℚ
  timestamp : ℕ
deriving DecidableEq

structure RoutingDecision where
  orderId : String
  raydiumQuote : DEXQuote
  meteoraQuote : DEXQuote
  selectedProvider : DEXProvider
  timestamp : ℕ
deriving DecidableEq

/-! ### services/dex/MockDexRouter.ts -/

namespace MockDexRouter

/-- Effective output as computed inside `selectBestDex`:
`amountOut * (1 - priceImpact)`. -/
def effectiveOutput (q : DEXQuote) : ℚ :=
  q.amountOut * (1 - q.priceImpact)

/-- The provider choice made by `selectBestDex`:
`raydiumEffective >= meteoraEffective ? RAYDIUM : METEORA`. -/
def selectProvider (raydiumQuote meteoraQuote : DEXQuote) : DEXProvider :=
  if effectiveOutput meteoraQuote ≤ effectiveOutput raydiumQuote then
    DEXProvider.raydium
  else
    DEXProvider.meteora

def selectBestDex (orderId : String) (raydiumQuote meteoraQuote : DEXQuote)
    (now : ℕ) : RoutingDecision :=
  { orderId := orderId
    raydiumQuote := raydiumQuote
    meteoraQuote := meteoraQuote
    selectedProvider := selectProvider raydiumQuote meteoraQuote
    timestamp := now }

/-- The quote belonging to the selected provider (as `getBestQuote` picks it). -/
def selectedQuote (raydiumQuote meteoraQuote : DEXQuote) : DEXQuote :=
  if selectProvider raydiumQuote meteoraQuote = DEXProvider.raydium then
    raydiumQuote
  else
    meteoraQuote

end MockDexRouter

/-! ### services/dex/MockSwapExecutor.ts -/

namespace MockSwapExecutor

/-- `validateSlippage`: `Math.abs((expectedPrice - executedPrice) / expectedPrice)
<= maxSlippage`.  A zero `expectedPrice` makes the JavaScript quotient
NaN/Infinity, for which `<=` is always false; the guard models that. -/
def validateSlippage (expectedPrice executedPrice maxSlippage : ℚ) : Bool :=
  if expectedPrice = 0 then false
  else |((expectedPrice - executedPrice) / expectedPrice)| ≤ maxSlippage

end MockSwapExecutor

/-! ### services/dex/DexService.ts -/

namespace DexService

/-- `executeSwap` after the inner executor returned `raw`: validate the
slippage gate and raise (`Except.error`) instead of returning on
violation. -/
def executeSwap (expectedPrice slippage : ℚ) (raw : SwapResult) :
    Except String SwapResult :=
  if MockSwapExecutor.validateSlippage expectedPrice raw.executedPrice slippage then
    Except.ok raw
  else
    Except.error "Slippage exceeded tolerance"

end DexService

/-! ### utils/helpers.ts -/

/-- One character of the base58 class `[1-9A-HJ-NP-Za-km-z]`. -/
def isBase58Char (c : Char) : Bool :=
  ('1' ≤ c && c ≤ '9') || ('A' ≤ c && c ≤ 'H') || ('J' ≤ c && c ≤ 'N') ||
  ('P' ≤ c && c ≤ 'Z') || ('a' ≤ c && c ≤ 'k') || ('m' ≤ c && c ≤ 'z')

/-- `isValidSolanaAddress`: the regex `^[1-9A-HJ-NP-Za-km-z]{32,44}$`. -/
def isValidSolanaAddress (address : String) : Bool :=
  32 ≤ address.length && address.length ≤ 44 && address.data.all isBase58Char

/-! ### queue/orderProcessor.ts — `isValidUUID` -/

def isHexChar (c : Char) : Bool :=
  ('0' ≤ c && c ≤ '9') || ('a' ≤ c && c ≤ 'f') || ('A' ≤ c && c ≤ 'F')

/-- `isValidUUID`: the case-insensitive regex
`^[0-9a-f]{8}-[0-9a-f]{4}-[1-5][0-9a-f]{3}-[89ab][0-9a-f]{3}-[0-9a-f]{12}$`,
checked position by position over the 36 characters. -/
def isValidUUID (s : String) : Bool :=
  let cs := s.data
  cs.length = 36 &&
  (List.range 36).all fun i =>
    let c := cs.getD i ' '
    if i = 8 || i = 13 || i = 18 || i = 23 then c = '-'
    else if i = 14 then '1' ≤ c && c ≤ '5'
    else if i = 19 then
      c = '8' || c = '9' || c = 'a' || c = 'b' || c = 'A' || c = 'B'
    else isHexChar c

/-! ### database/repository.ts

The `orders` table is modelled as a list of records; drizzle's
`update().set().where(eq(orders.id, orderId)).returning()` updates every
row whose id matches (the id is the primary key, so at most one) and the
destructuring `const [order] =` takes the first updated row. -/

structure OrderRecord where
  id : String
  type : OrderType
  status : OrderStatus
  tokenIn : String
  tokenOut : String
  amountIn : ℚ
  amountOut : Option ℚ
  expectedPrice : Option ℚ
  executedPrice : Option ℚ
  slippage : ℚ
  dexProvider : Option DEXProvider
  txHash : Option String
  errorMessage : Option String
  retryCount : ℕ
  createdAt : ℕ
  updatedAt : ℕ
  completedAt : Option ℕ
deriving DecidableEq

/-- A `Partial<OrderRecord>` passed as `additionalData`; `none` means the
field is absent from the object and therefore not overridden by the
spread. -/
structure OrderPatch where
  status : Option OrderStatus := none
  amountOut : Option (Option ℚ) := none
  executedPrice : Option (Option ℚ) := none
  dexProvider : Option (Option DEXProvider) := none
  txHash : Option (Option String) := none
  errorMessage : Option (Option String) := none
  retryCount : Option ℕ := none
  updatedAt : Option ℕ := none
  completedAt : Option (Option ℕ) := none
deriving DecidableEq

def emptyPatch : OrderPatch := {}

def applyPatch (r : OrderRecord) (p : OrderPatch) : OrderRecord :=
  { r with
    status := p.status.getD r.status
    amountOut := p.amountOut.getD r.amountOut
    executedPrice := p.executedPrice.getD r.executedPrice
    dexProvider := p.dexProvider.getD r.dexProvider
    txHash := p.txHash.getD r.txHash
    errorMessage := p.errorMessage.getD r.errorMessage
    retryCount := p.retryCount.getD r.retryCount
    updatedAt := p.updatedAt.getD r.updatedAt
    completedAt := p.completedAt.getD r.completedAt }

namespace OrderRepository

def findById (db : List OrderRecord) (orderId : String) : Option OrderRecord :=
  (db.filter fun r => r.id = orderId).head?

/-- `updateStatus(orderId, status, additionalData?)`: sets `status` and a
fresh `updatedAt`, then spreads `additionalData` over the row — with no
transition or terminal-state check of any kind; returns the updated row
(or `none` when no row matched). -/
def updateStatus (db : List OrderRecord) (orderId : String)
    (status : OrderStatus) (additionalData : OrderPatch) (now : ℕ) :
    List OrderRecord × Option OrderRecord :=
  let db2 := db.map fun r =>
    if r.id = orderId then
      applyPatch { r with status := status, updatedAt := now } additionalData
    else r
  (db2, (db2.filter fun r => r.id = orderId).head?)

/-- `updateExecution`: the `Submitted -> Confirmed` write; sets the
execution fields, `status = CONFIRMED`, `completedAt` and `updatedAt`. -/
def updateExecution (db : List OrderRecord) (orderId : String)
    (executedPrice amountOut : ℚ) (dexProvider : DEXProvider)
    (txHash : String) (now : ℕ) :
    List OrderRecord × Option OrderRecord :=
  let db2 := db.map fun r =>
    if r.id = orderId then
      { r with
        executedPrice := some executedPrice
        amountOut := some amountOut
        dexProvider := some dexProvider
        txHash := some txHash
        status := OrderStatus.confirmed
        completedAt := some now
        updatedAt := now }
    else r
  (db2, (db2.filter fun r => r.id = orderId).head?)

/-- `markFailed`: sets `status = FAILED`, the error message, the final
retry count, `completedAt` and `updatedAt`. -/
def markFailed (db : List OrderRecord) (orderId : String)
    (errorMessage : String) (retryCount : ℕ) (now : ℕ) :
    List OrderRecord × Option OrderRecord :=
  let db2 := db.map fun r =>
    if r.id = orderId then
      { r with
        status := OrderStatus.failed
        errorMessage := some errorMessage
        retryCount := retryCount
        completedAt := some now
        updatedAt := now }
    else r
  (db2, (db2.filter fun r => r.id = orderId).head?)

/-- `incrementRetry`: read-modify-write of the retry counter. -/
def incrementRetry (db : List OrderRecord) (orderId : String) (now : ℕ) :
    List OrderRecord × Option OrderRecord :=
  match findById db orderId with
  | none => (db, none)
  | some _ =>
    let db2 := db.map fun r =>
      if r.id = orderId then
        { r with retryCount := r.retryCount + 1, updatedAt := now }
      else r
    (db2, (db2.filter fun r => r.id = orderId).head?)

/-- `countByStatus`: number of rows currently in the given status. -/
def countByStatus (db : List OrderRecord) (status : OrderStatus) : ℕ :=
  (db.filter fun r => r.status = status).length

end OrderRepository

/-! ### api/routes/orders.ts — GET /api/orders/stats

The Stats endpoint the server wires up issues seven parallel count
queries through `orderRepository.count`. -/

namespace OrderRepository

/-- Modelled from the spec: the Order Store's `Count(statusOpt)`
operation (spec section 4.4).  `orderRepository.count` is called by the
routes and mocked by the unit tests, but its definition is not among the
source files; per the spec it counts all orders, or only the orders in
the given status when one is supplied. -/
def count (db : List OrderRecord) (status : Option OrderStatus) : ℕ :=
  match status with
  | none => db.length
  | some s => (db.filter fun r => r.status = s).length

end OrderRepository

structure RouteOrderStats where
  total : ℕ
  pending : ℕ
  routing : ℕ
  building : ℕ
  submitted : ℕ
  confirmed : ℕ
  failed : ℕ
deriving DecidableEq

/-- The GET /api/orders/stats handler: `orderRepository.count()` for the
total plus one `count(status)` query per status, for all six statuses. -/
def getStatsRoute (db : List OrderRecord) : RouteOrderStats :=
  { total := OrderRepository.count db none
    pending := OrderRepository.count db (some OrderStatus.pending)
    routing := OrderRepository.count db (some OrderStatus.routing)
    building := OrderRepository.count db (some OrderStatus.building)
    submitted := OrderRepository.count db (some OrderStatus.submitted)
    confirmed := OrderRepository.count db (some OrderStatus.confirmed)
    failed := OrderRepository.count db (some OrderStatus.failed) }

/-! ### services/cache/CacheService.ts

Redis is modelled per key family: the hot cache `order:{id}` as an
association list from order id to the cached order JSON, and the
per-order update log `order:{id}:updates` as the Redis list itself
(`lpush` prepends, `lrange 0 -1` reads head first). -/

structure CachedOrder where
  status : OrderStatus
  executedPrice : Option ℚ
  txHash : Option String
  dexProvider : Option DEXProvider
  errorMessage : Option String
  updatedAt : ℕ
deriving DecidableEq

/-- A `Partial<Order>` status update spread over the cached order. -/
structure CachePatch where
  status : Option OrderStatus := none
  executedPrice : Option ℚ := none
  txHash : Option String := none
  dexProvider : Option DEXProvider := none
  errorMessage : Option String := none
deriving DecidableEq

structure OrderStatusUpdate where
  orderId : String
  status : OrderStatus
  message : String
  timestamp : ℕ
deriving DecidableEq

abbrev OrderCache := List (String × CachedOrder)

abbrev UpdateLogs := List (String × List OrderStatusUpdate)

namespace CacheService

def getCachedOrder (cache : OrderCache) (orderId : String) :
    Option CachedOrder :=
  (cache.find? fun p => p.1 = orderId).map Prod.snd

def applyCachePatch (c : CachedOrder) (p : CachePatch) (now : ℕ) :
    CachedOrder :=
  { status := p.status.getD c.status
    executedPrice := (p.executedPrice.map some).getD c.executedPrice
    txHash := (p.txHash.map some).getD c.txHash
    dexProvider := (p.dexProvider.map some).getD c.dexProvider
    errorMessage := (p.errorMessage.map some).getD c.errorMessage
    updatedAt := now }

/-- `updateCachedOrderStatus`: read the cached order; when the key is
absent return without writing anything; otherwise store the merged
object `{...cached, ...statusUpdate, updatedAt: new Date()}`. -/
def updateCachedOrderStatus (cache : OrderCache) (orderId : String)
    (statusUpdate : CachePatch) (now : ℕ) : OrderCache :=
  match getCachedOrder cache orderId with
  | none => cache
  | some cached =>
    cache.map fun p =>
      if p.1 = orderId then (p.1, applyCachePatch cached statusUpdate now)
      else p

/-- `cacheStatusUpdate` on the single per-order list: `lpush` prepends
the serialized update; there is no trim, so nothing is ever dropped. -/
def cacheStatusUpdate (log : List OrderStatusUpdate)
    (update : OrderStatusUpdate) : List OrderStatusUpdate :=
  update :: log

/-- `getStatusUpdates`: `lrange(key, 0, -1)` returns the stored list
head (most recent) first, and the code then applies `.reverse()`. -/
def getStatusUpdates (log : List OrderStatusUpdate) :
    List OrderStatusUpdate :=
  log.reverse

/-- `cacheStatusUpdate` lifted to the log table: `lpush` creates the key
when it does not exist yet. -/
def logsPush (logs : UpdateLogs) (orderId : String)
    (update : OrderStatusUpdate) : UpdateLogs :=
  match logs.find? fun p => p.1 = orderId with
  | some _ =>
    logs.map fun p =>
      if p.1 = orderId then (p.1, cacheStatusUpdate p.2 update) else p
  | none => (orderId, [update]) :: logs

end CacheService

/-! ### api/schemas.ts — `ExecuteOrderSchema` and
### api/routes/orders.ts — POST /api/orders/execute (admission)

The execute route is the only endpoint that creates orders: Fastify
validates the request body against the TypeBox `ExecuteOrderSchema`
before the handler runs, the handler applies the 0.01 slippage default
and calls `orderService.validateOrder`, and the order row is created
only when both gates pass. -/

/-- The request body of POST /api/orders/execute; `none` stands for an
absent optional field. -/
structure ExecuteOrderBody where
  tokenIn : String
  tokenOut : String
  amountIn : ℚ
  slippage : Option ℚ
  orderType : Option OrderType
deriving DecidableEq

/-- `ExecuteOrderSchema` (TypeBox): token address lengths in [32, 44],
`amountIn` at least 0.000001, and `slippage`, when present, in
[0.0001, 0.5] (its schema default is 0.01). -/
def executeOrderSchemaAccepts (b : ExecuteOrderBody) : Bool :=
  (32 ≤ b.tokenIn.length ∧ b.tokenIn.length ≤ 44) ∧
  (32 ≤ b.tokenOut.length ∧ b.tokenOut.length ≤ 44) ∧
  1 / 1000000 ≤ b.amountIn ∧
  (∀ s ∈ b.slippage, 1 / 10000 ≤ s ∧ s ≤ 1 / 2)

namespace OrderService

/-- `validateOrder` — the OrderService method the execute route calls:
token address length bounds, `amountIn > 0`, and slippage in
[0.0001, 0.5]. -/
def validateOrderErrors (tokenIn tokenOut : String)
    (amountIn slippage : ℚ) : List String :=
  (if tokenIn.length < 32 ∨ 44 < tokenIn.length
   then ["Invalid tokenIn address"] else []) ++
  (if tokenOut.length < 32 ∨ 44 < tokenOut.length
   then ["Invalid tokenOut address"] else []) ++
  (if amountIn ≤ 0 then ["amountIn must be greater than 0"] else []) ++
  (if slippage < 1 / 10000 ∨ 1 / 2 < slippage
   then ["Slippage must be between 0.01% and 50%"] else [])

def validateOrder (tokenIn tokenOut : String)
    (amountIn slippage : ℚ) : Bool :=
  (validateOrderErrors tokenIn tokenOut amountIn slippage).isEmpty

end OrderService

/-- Admission through POST /api/orders/execute: the TypeBox schema gate
followed by `orderService.validateOrder` on the defaulted slippage. -/
def executeRouteAccepts (b : ExecuteOrderBody) : Bool :=
  executeOrderSchemaAccepts b &&
  OrderService.validateOrder b.tokenIn b.tokenOut b.amountIn
    (b.slippage.getD (1 / 100))

/-! ### queue/orderProcessor.ts — `processOrder`

The shared mutable state a job can touch: the orders table, the hot
cache and the per-order update logs.  The mock router always produces
both quotes, so the only error source the embedding models is the
slippage gate inside `DexService.executeSwap`; the catch-branch retry
policy is shared by every error kind in the source. -/

def maxRetryAttemptsDefault : ℕ := 3

structure EngineState where
  dbOrders : List OrderRecord
  cacheOrders : OrderCache
  statusLogs : UpdateLogs
deriving DecidableEq

inductive ProcessResult where
  | skippedInvalidUUID
  | success (txHash : String) (executedPrice amountOut : ℚ)
      (dexProvider : DEXProvider)
  | retryThrown
  | failedPermanently (retryCount : ℕ)
deriving DecidableEq

/-- The processor's `updateOrderStatus` helper: repository write plus
`cacheStatusUpdate` (the WebSocket broadcast has no effect on this
state). -/
def stateUpdateStatus (st : EngineState) (orderId : String)
    (status : OrderStatus) (message : String) (now : ℕ) : EngineState :=
  { st with
    dbOrders := (OrderRepository.updateStatus st.dbOrders orderId status
      emptyPatch now).1
    statusLogs := CacheService.logsPush st.statusLogs orderId
      { orderId := orderId, status := status, message := message,
        timestamp := now } }

/-- `processOrder`: skip non-UUID ids before touching anything; then
ROUTING, routing decision, BUILDING, SUBMITTED, the gated swap; on
success `updateExecution` + cache update + CONFIRMED, on error
`incrementRetry` and either rethrow (requeue) or `markFailed` + cache
update + FAILED.  `attemptNumber` is `job.attemptsMade` (0-indexed). -/
def processOrder (st : EngineState) (orderId : String)
    (attemptNumber maxRetryAttempts : ℕ) (slippage : ℚ)
    (raydiumQuote meteoraQuote : DEXQuote) (raw : SwapResult)
    (errorMessage : String) (now : ℕ) : EngineState × ProcessResult :=
  if isValidUUID orderId then
    let st1 := stateUpdateStatus st orderId OrderStatus.routing
      "Comparing DEX prices" now
    let decision := MockDexRouter.selectBestDex orderId raydiumQuote
      meteoraQuote now
    let quote := MockDexRouter.selectedQuote raydiumQuote meteoraQuote
    let st2 := stateUpdateStatus st1 orderId OrderStatus.building
      "Creating transaction" now
    let st3 := stateUpdateStatus st2 orderId OrderStatus.submitted
      "Transaction sent to network" now
    match DexService.executeSwap quote.price slippage raw with
    | Except.ok result =>
      let st4 := { st3 with
        dbOrders := (OrderRepository.updateExecution st3.dbOrders orderId
          result.executedPrice result.amountOut decision.selectedProvider
          result.txHash now).1 }
      let st5 := { st4 with
        cacheOrders := CacheService.updateCachedOrderStatus st4.cacheOrders
          orderId
          { status := some OrderStatus.confirmed
            executedPrice := some result.executedPrice
            txHash := some result.txHash
            dexProvider := some decision.selectedProvider } now }
      let st6 := stateUpdateStatus st5 orderId OrderStatus.confirmed
        "Transaction confirmed" now
      (st6, ProcessResult.success result.txHash result.executedPrice
        result.amountOut decision.selectedProvider)
    | Except.error _ =>
      let st4 := { st3 with
        dbOrders := (OrderRepository.incrementRetry st3.dbOrders orderId
          now).1 }
      if attemptNumber < maxRetryAttempts - 1 then
        (st4, ProcessResult.retryThrown)
      else
        let st5 := { st4 with
          dbOrders := (OrderRepository.markFailed st4.dbOrders orderId
            errorMessage (attemptNumber + 1) now).1 }
        let st6 := { st5 with
          cacheOrders := CacheService.updateCachedOrderStatus st5.cacheOrders
            orderId
            { status := some OrderStatus.failed
              errorMessage := some errorMessage } now }
        let st7 := stateUpdateStatus st6 orderId OrderStatus.failed
          "Order failed" now
        (st7, ProcessResult.failedPermanently (attemptNumber + 1))
  else
    (st, ProcessResult.skippedInvalidUUID)

/-- Attempt `k` of a job can run only if every earlier attempt errored
and was requeued by the worker's retry branch
(`attemptNumber < maxRetryAttempts - 1`). -/
def attemptReachable (maxRetryAttempts : ℕ) : ℕ → Prop
  | 0 => True
  | k + 1 => attemptReachable maxRetryAttempts k ∧ k < maxRetryAttempts - 1

/-! ### Claim C5 -/

/-- C5: normalization is idempotent, and pair validation fails exactly when
the normalized addresses coincide or the raw addresses coincide; in
particular the native-SOL/wrapped-SOL pair is rejected in either
direction. -/
theorem normalize_idem_and_validatePair_iff :
    (∀ a, WrappedSolHandler.normalizeTokenAddress
        (WrappedSolHandler.normalizeTokenAddress a) =
        WrappedSolHandler.normalizeTokenAddress a) ∧
    (∀ a b, (WrappedSolHandler.validateTokenAddresses a b).isValid = false ↔
      (WrappedSolHandler.normalizeTokenAddress a =
        WrappedSolHandler.normalizeTokenAddress b ∨ a = b)) ∧
    (WrappedSolHandler.validateTokenAddresses NATIVE_SOL_ADDRESS
      WRAPPED_SOL_ADDRESS).isValid = false ∧
    (WrappedSolHandler.validateTokenAddresses WRAPPED_SOL_ADDRESS
      NATIVE_SOL_ADDRESS).isValid = false := by
  refine ⟨WrappedSolHandler.normalizeTokenAddress_idem,
    WrappedSolHandler.validateTokenAddresses_fails_iff, ?_, ?_⟩ <;> decide

/-! ### Claim C2 -/

def tieRaydiumQuote : DEXQuote :=
  { provider := DEXProvider.raydium, tokenIn := "A", tokenOut := "B",
    amountIn := 100, amountOut := 100, price := 1, fee := 3 / 1000,
    priceImpact := 0, timestamp := 0 }

def tieMeteoraQuote : DEXQuote :=
  { provider := DEXProvider.meteora, tokenIn := "A", tokenOut := "B",
    amountIn := 100, amountOut := 100, price := 1, fee := 2 / 1000,
    priceImpact := 0, timestamp := 0 }

/-- C2 counterexample: two quotes with exactly equal effective outputs and
a strictly lower Meteora fee rate; the claimed tie-break by lower feeRate
would select Meteora, but `selectBestDex` selects Raydium. -/
theorem selectBestDex_tie_ignores_fee_cex :
    MockDexRouter.effectiveOutput tieRaydiumQuote =
      MockDexRouter.effectiveOutput tieMeteoraQuote ∧
    tieMeteoraQuote.fee < tieRaydiumQuote.fee ∧
    (MockDexRouter.selectBestDex "order-1" tieRaydiumQuote tieMeteoraQuote
      0).selectedProvider = DEXProvider.raydium := by
  refine ⟨?_, ?_, ?_⟩
  · norm_num [MockDexRouter.effectiveOutput, tieRaydiumQuote, tieMeteoraQuote]
  · norm_num [tieRaydiumQuote, tieMeteoraQuote]
  · norm_num [MockDexRouter.selectBestDex, MockDexRouter.selectProvider,
      MockDexRouter.effectiveOutput, tieRaydiumQuote, tieMeteoraQuote]

/-- C2 amended: the router picks the quote of maximal effective output
`amountOut * (1 - priceImpact)`, and on an exact tie it selects the
first-registered driver (Raydium) directly — feeRate and priceImpact are
not consulted; the choice is a pure function of the two quotes. -/
theorem selectBestDex_effective_output_rule (orderId : String)
    (r m : DEXQuote) (now : ℕ) :
    MockDexRouter.effectiveOutput (MockDexRouter.selectedQuote r m) =
      max (MockDexRouter.effectiveOutput r) (MockDexRouter.effectiveOutput m) ∧
    ((MockDexRouter.selectBestDex orderId r m now).selectedProvider =
        DEXProvider.raydium ↔
      MockDexRouter.effectiveOutput m ≤ MockDexRouter.effectiveOutput r) := by
  unfold MockDexRouter.selectedQuote MockDexRouter.selectBestDex
    MockDexRouter.selectProvider
  rcases le_or_lt (MockDexRouter.effectiveOutput m)
    (MockDexRouter.effectiveOutput r) with h | h
  · simp [h, max_eq_left h]
  · have hn : ¬ MockDexRouter.effectiveOutput m ≤
        MockDexRouter.effectiveOutput r := not_le.mpr h
    simp [hn, max_eq_right h.le]

/-! ### Claim C1 -/

def confirmedOrderC1 : OrderRecord :=
  { id := "a1", type := OrderType.market, status := OrderStatus.confirmed,
    tokenIn := "T1", tokenOut := "T2", amountIn := 1, amountOut := some 1,
    expectedPrice := none, executedPrice := some 1, slippage := 0,
    dexProvider := some DEXProvider.raydium, txHash := some "h",
    errorMessage := none, retryCount := 0, createdAt := 0, updatedAt := 0,
    completedAt := some 0 }

def submittedOrderC1 : OrderRecord :=
  { id := "a1", type := OrderType.market, status := OrderStatus.submitted,
    tokenIn := "T1", tokenOut := "T2", amountIn := 1, amountOut := none,
    expectedPrice := none, executedPrice := none, slippage := 0,
    dexProvider := none, txHash := none, errorMessage := none,
    retryCount := 0, createdAt := 0, updatedAt := 0, completedAt := none }

/-- C1 counterexample: `updateStatus` happily mutates an order whose
current status is Confirmed (even to Pending, not an edge of the
transition graph), and a transition into the terminal status Confirmed
does not set `completedAt`. -/
theorem updateStatus_accepts_terminal_mutation_cex :
    (OrderRepository.updateStatus [confirmedOrderC1] "a1" OrderStatus.pending
      emptyPatch 5).2 =
      some { confirmedOrderC1 with
               status := OrderStatus.pending, updatedAt := 5 } ∧
    ((OrderRepository.updateStatus [submittedOrderC1] "a1"
      OrderStatus.confirmed emptyPatch 5).2.map OrderRecord.completedAt) =
      some none := by
  constructor <;> decide

/-- C1 amended: `updateStatus` is unconditional — for every order id and
every requested status it rewrites the matching row with the new status
and a fresh `updatedAt`, leaving `completedAt` and every other field (and
every other row) unchanged; it performs no transition-graph and no
terminal-state check, and never sets `completedAt` itself. -/
theorem updateStatus_unconditional_map (db : List OrderRecord)
    (orderId : String) (status : OrderStatus) (now : ℕ) (i : ℕ) :
    (OrderRepository.updateStatus db orderId status emptyPatch now).1[i]? =
      db[i]?.map fun r =>
        if r.id = orderId then { r with status := status, updatedAt := now }
        else r := by
  unfold OrderRepository.updateStatus
  simp only [List.getElem?_map]
  rcases db[i]? with _ | r
  · rfl
  · by_cases h : r.id = orderId <;> simp [h, applyPatch, emptyPatch]

/-! ### Claim C9 -/

theorem length_eq_sum_of_status_counts (db : List OrderRecord) :
    db.length =
      OrderRepository.count db (some OrderStatus.pending) +
      OrderRepository.count db (some OrderStatus.routing) +
      OrderRepository.count db (some OrderStatus.building) +
      OrderRepository.count db (some OrderStatus.submitted) +
      OrderRepository.count db (some OrderStatus.confirmed) +
      OrderRepository.count db (some OrderStatus.failed) := by
  induction db with
  | nil => simp [OrderRepository.count]
  | cons r t ih =>
    cases h : r.status <;>
      simp [OrderRepository.count, h, List.filter_cons] at ih ⊢ <;>
        omega

/-- C9: the Stats operation (GET /api/orders/stats) returns a count for
every one of the six order statuses, and the total it reports equals the
sum of the six per-status counts — which is the number of all orders in
the store. -/
theorem statsRoute_total_eq_sum_all_statuses (db : List OrderRecord) :
    (getStatsRoute db).total =
      (getStatsRoute db).pending + (getStatsRoute db).routing +
        (getStatsRoute db).building + (getStatsRoute db).submitted +
        (getStatsRoute db).confirmed + (getStatsRoute db).failed ∧
    (getStatsRoute db).total = db.length := by
  refine ⟨?_, rfl⟩
  simpa [getStatsRoute] using length_eq_sum_of_status_counts db

/-! ### Claim C10 -/

/-- C10: when the order id is not in the hot cache,
`updateCachedOrderStatus` writes nothing: the cache is returned
unchanged and no entry is created. -/
theorem updateCachedOrderStatus_absent_frame (cache : OrderCache)
    (orderId : String) (statusUpdate : CachePatch) (now : ℕ)
    (h : CacheService.getCachedOrder cache orderId = none) :
    CacheService.updateCachedOrderStatus cache orderId statusUpdate now =
      cache := by
  unfold CacheService.updateCachedOrderStatus
  rw [h]

/-- C10 witness: a concrete absent id on a nonempty cache. -/
theorem updateCachedOrderStatus_absent_frame_witness :
    CacheService.updateCachedOrderStatus
      [("other", { status := OrderStatus.pending, executedPrice := none,
                   txHash := none, dexProvider := none,
                   errorMessage := none, updatedAt := 0 })] "missing" {} 9 =
      [("other", { status := OrderStatus.pending, executedPrice := none,
                   txHash := none, dexProvider := none,
                   errorMessage := none, updatedAt := 0 })] :=
  updateCachedOrderStatus_absent_frame _ _ _ _ (by decide)

/-! ### Claim C6 -/

def updA : OrderStatusUpdate :=
  { orderId := "o1", status := OrderStatus.routing, message := "first",
    timestamp := 1 }

def updB : OrderStatusUpdate :=
  { orderId := "o1", status := OrderStatus.building, message := "second",
    timestamp := 2 }

/-- C6 counterexample: after recording `updA` then `updB`, reading the
log yields `[updA, updB]` — oldest first, not newest first — and after 51
appended transitions the log still holds all 51 entries, so no 50-entry
cap exists. -/
theorem statusUpdates_order_and_cap_cex :
    (CacheService.getStatusUpdates
        (CacheService.cacheStatusUpdate
          (CacheService.cacheStatusUpdate [] updA) updB) = [updA, updB] ∧
      [updA, updB] ≠ [updB, updA]) ∧
    ((List.range 51).foldl
        (fun log i => CacheService.cacheStatusUpdate log
          { orderId := "o1", status := OrderStatus.routing, message := "m",
            timestamp := i }) []).length = 51 := by
  refine ⟨⟨?_, ?_⟩, ?_⟩ <;> decide

theorem foldl_cacheStatusUpdate_eq_reverse_append
    (updates : List OrderStatusUpdate) (acc : List OrderStatusUpdate) :
    updates.foldl CacheService.cacheStatusUpdate acc =
      updates.reverse ++ acc := by
  induction updates generalizing acc with
  | nil => simp
  | cons u us ih => simp [CacheService.cacheStatusUpdate, ih]

/-- C6 amended: the per-order update log is unbounded — every recorded
transition is retained — and reading it returns the recorded events
oldest first (in exactly the order they were appended). -/
theorem statusUpdates_unbounded_oldest_first
    (updates : List OrderStatusUpdate) :
    (updates.foldl CacheService.cacheStatusUpdate []).length =
      updates.length ∧
    CacheService.getStatusUpdates
      (updates.foldl CacheService.cacheStatusUpdate []) = updates := by
  rw [foldl_cacheStatusUpdate_eq_reverse_append]
  constructor
  · simp
  · simp [CacheService.getStatusUpdates]

/-! ### Sample data for the processor claims -/

def uuidSample : String := "550e8400-e29b-41d4-a716-446655440000"

def sampleRaydiumQuote : DEXQuote :=
  { provider := DEXProvider.raydium, tokenIn := "A", tokenOut := "B",
    amountIn := 100, amountOut := 100, price := 1, fee := 0,
    priceImpact := 0, timestamp := 0 }

def sampleMeteoraQuote : DEXQuote :=
  { provider := DEXProvider.meteora, tokenIn := "A", tokenOut := "B",
    amountIn := 100, amountOut := 99, price := 1, fee := 0,
    priceImpact := 0, timestamp := 0 }

def goodSwapResult : SwapResult :=
  { success := true, txHash := "tx", executedPrice := 1, amountOut := 100,
    actualSlippage := 0, timestamp := 0 }

def badSwapResult : SwapResult :=
  { success := true, txHash := "tx", executedPrice := 2, amountOut := 100,
    actualSlippage := 0, timestamp := 0 }

/-! ### Claim C3 -/

/-- C3: on a failing attempt `k` (0-indexed) the worker requeues iff
`k + 1 < maxRetryAttempts` and dead-letters at `k + 1 = maxRetryAttempts`
with final retry count `maxRetryAttempts` (default 3); consequently the
attempt index of any reachable attempt stays below the bound, so the
total number of attempts never exceeds `maxRetryAttempts`. -/
theorem processOrder_retry_policy (st : EngineState)
    (orderId errMsg : String) (k maxA : ℕ) (slippage : ℚ)
    (qr qm : DEXQuote) (raw : SwapResult) (now : ℕ)
    (huuid : isValidUUID orderId = true)
    (hgate : MockSwapExecutor.validateSlippage
      (MockDexRouter.selectedQuote qr qm).price raw.executedPrice slippage
        = false)
    (hmax : 1 ≤ maxA) :
    ((processOrder st orderId k maxA slippage qr qm raw errMsg now).2 =
        ProcessResult.retryThrown ↔ k + 1 < maxA) ∧
    (k + 1 = maxA →
      (processOrder st orderId k maxA slippage qr qm raw errMsg now).2 =
        ProcessResult.failedPermanently maxA) ∧
    (∀ j, attemptReachable maxA j → j + 1 ≤ maxA) ∧
    maxRetryAttemptsDefault = 3 := by
  have key : (processOrder st orderId k maxA slippage qr qm raw errMsg
      now).2 =
      if k < maxA - 1 then ProcessResult.retryThrown
      else ProcessResult.failedPermanently (k + 1) := by
    by_cases hk : k < maxA - 1 <;>
      simp [processOrder, huuid, DexService.executeSwap, hgate, hk]
  refine ⟨?_, ?_, ?_, rfl⟩
  · rw [key]
    by_cases hk : k < maxA - 1
    · rw [if_pos hk]
      exact iff_of_true rfl (by omega)
    · rw [if_neg hk]
      exact iff_of_false (by simp) (by omega)
  · intro hEq
    rw [key, if_neg (by omega), hEq]
  · intro j hj
    induction j with
    | zero => omega
    | succ n ih =>
      have hj2 : attemptReachable maxA n ∧ n < maxA - 1 := hj
      omega

/-- C3 witness: attempt 2 of 3 with a failing slippage gate dead-letters
with retry count 3. -/
theorem processOrder_retry_policy_witness :
    ((processOrder ⟨[], [], []⟩ uuidSample 2 3 0 sampleRaydiumQuote
        sampleMeteoraQuote badSwapResult "err" 7).2 =
        ProcessResult.retryThrown ↔ 2 + 1 < 3) ∧
    (2 + 1 = 3 →
      (processOrder ⟨[], [], []⟩ uuidSample 2 3 0 sampleRaydiumQuote
        sampleMeteoraQuote badSwapResult "err" 7).2 =
        ProcessResult.failedPermanently 3) ∧
    (∀ j, attemptReachable 3 j → j + 1 ≤ 3) ∧
    maxRetryAttemptsDefault = 3 :=
  processOrder_retry_policy ⟨[], [], []⟩ uuidSample "err" 2 3 0
    sampleRaydiumQuote sampleMeteoraQuote badSwapResult 7
    (by decide)
    (by norm_num [MockSwapExecutor.validateSlippage,
      MockDexRouter.selectedQuote, MockDexRouter.selectProvider,
      MockDexRouter.effectiveOutput, sampleRaydiumQuote,
      sampleMeteoraQuote, badSwapResult])
    (by norm_num)

/-! ### Claim C4 -/

/-- C4: whenever a processed job reports success (the only path that
writes Confirmed), the executed price it reports is the raw executor
price and it satisfies the slippage gate
`|expected - executed| / expected <= slippage` against the selected
quote's price; a violating swap raises instead of returning, so a
Confirmed order always satisfies the bound. -/
theorem processOrder_success_slippage_bound (st : EngineState)
    (orderId errMsg : String) (k maxA : ℕ) (slippage : ℚ)
    (qr qm : DEXQuote) (raw : SwapResult) (now : ℕ)
    (tx : String) (e a : ℚ) (p : DEXProvider)
    (h : (processOrder st orderId k maxA slippage qr qm raw errMsg now).2 =
      ProcessResult.success tx e a p) :
    e = raw.executedPrice ∧
    (MockDexRouter.selectedQuote qr qm).price ≠ 0 ∧
    |(((MockDexRouter.selectedQuote qr qm).price - e) /
      (MockDexRouter.selectedQuote qr qm).price)| ≤ slippage := by
  by_cases huuid : isValidUUID orderId
  · by_cases hv : MockSwapExecutor.validateSlippage
        (MockDexRouter.selectedQuote qr qm).price raw.executedPrice slippage
    · have he : e = raw.executedPrice := by
        simp [processOrder, huuid, DexService.executeSwap, hv] at h
        exact h.2.1.symm
      unfold MockSwapExecutor.validateSlippage at hv
      by_cases hz : (MockDexRouter.selectedQuote qr qm).price = 0
      · rw [if_pos hz] at hv
        cases hv
      · rw [if_neg hz] at hv
        exact ⟨he, hz, by simpa [he] using of_decide_eq_true hv⟩
    · by_cases hk : k < maxA - 1 <;>
        simp [processOrder, huuid, DexService.executeSwap, hv, hk] at h
  · simp [processOrder, huuid] at h

/-- C4 witness: a concrete confirmed execution at slippage 1%. -/
theorem processOrder_success_slippage_bound_witness :
    (1 : ℚ) = goodSwapResult.executedPrice ∧
    (MockDexRouter.selectedQuote sampleRaydiumQuote
      sampleMeteoraQuote).price ≠ 0 ∧
    |(((MockDexRouter.selectedQuote sampleRaydiumQuote
        sampleMeteoraQuote).price - 1) /
      (MockDexRouter.selectedQuote sampleRaydiumQuote
        sampleMeteoraQuote).price)| ≤ (1 / 100 : ℚ) :=
  processOrder_success_slippage_bound ⟨[], [], []⟩ uuidSample "err" 0 3
    (1 / 100) sampleRaydiumQuote sampleMeteoraQuote goodSwapResult 7
    "tx" 1 100 DEXProvider.raydium
    (by norm_num [processOrder, DexService.executeSwap,
      MockSwapExecutor.validateSlippage, MockDexRouter.selectedQuote,
      MockDexRouter.selectProvider, MockDexRouter.selectBestDex,
      MockDexRouter.effectiveOutput, sampleRaydiumQuote,
      sampleMeteoraQuote, goodSwapResult,
      show isValidUUID uuidSample = true from by decide])

/-! ### Claim C8 -/

def pendingOrderC8 : OrderRecord :=
  { id := "c8", type := OrderType.market, status := OrderStatus.pending,
    tokenIn := "T1", tokenOut := "T2", amountIn := 1, amountOut := none,
    expectedPrice := none, executedPrice := none, slippage := 0,
    dexProvider := none, txHash := none, errorMessage := none,
    retryCount := 0, createdAt := 0, updatedAt := 0, completedAt := none }

/-- C8: a job whose orderId is not a well-formed UUID is skipped: the
processor returns the skip result (reported as success in the source)
and the entire engine state — order rows, cache entries, update logs,
retry counters — is left exactly as it was. -/
theorem processOrder_skips_invalid_uuid (st : EngineState)
    (orderId errMsg : String) (k maxA : ℕ) (slippage : ℚ)
    (qr qm : DEXQuote) (raw : SwapResult) (now : ℕ)
    (h : isValidUUID orderId = false) :
    processOrder st orderId k maxA slippage qr qm raw errMsg now =
      (st, ProcessResult.skippedInvalidUUID) := by
  simp [processOrder, h]

/-- C8 witness: the synthetic id `order_123` is skipped and the state
with one pending order is untouched. -/
theorem processOrder_skips_invalid_uuid_witness :
    processOrder ⟨[pendingOrderC8], [], []⟩ "order_123" 0 3 0
      sampleRaydiumQuote sampleMeteoraQuote goodSwapResult "err" 7 =
      (⟨[pendingOrderC8], [], []⟩, ProcessResult.skippedInvalidUUID) :=
  processOrder_skips_invalid_uuid ⟨[pendingOrderC8], [], []⟩ "order_123"
    "err" 0 3 0 sampleRaydiumQuote sampleMeteoraQuote goodSwapResult 7
    (by decide)

/-! ### Claim C7 -/

def hugeAmountBody : ExecuteOrderBody :=
  { tokenIn := "So11111111111111111111111111111111111111112"
    tokenOut := "EPjFWdd5AufqSSqeM2qN1xzybapC8G4wEGGkZwyTDt1v"
    amountIn := 2000000
    slippage := some (1 / 100)
    orderType := some OrderType.market }

/-- C7 counterexample: a request with amountIn 2,000,000 — twice the
claimed 1,000,000 cap — passes both the execute route's TypeBox schema
and `orderService.validateOrder`, so admission accepts it and creates
the order instead of rejecting it. -/
theorem executeRoute_accepts_two_million_cex :
    executeRouteAccepts hugeAmountBody = true ∧
    (1000000 : ℚ) < hugeAmountBody.amountIn := by
  have hl1 : ("So11111111111111111111111111111111111111112" : String).length
      = 43 := by decide
  have hl2 : ("EPjFWdd5AufqSSqeM2qN1xzybapC8G4wEGGkZwyTDt1v" : String).length
      = 44 := by decide
  constructor
  · norm_num [executeRouteAccepts, executeOrderSchemaAccepts,
      OrderService.validateOrder, OrderService.validateOrderErrors,
      hugeAmountBody, hl1, hl2]
  · norm_num [hugeAmountBody]

/-- C7 amended: with token addresses of valid length, admission through
the execute route accepts exactly when `amountIn >= 0.000001` (the
schema floor) and the effective slippage — the supplied value, or the
0.01 default when omitted — lies in [0.0001, 0.5]; acceptance forces
`amountIn > 0`, but no 1,000,000 upper cap on `amountIn` is enforced
anywhere on the path. -/
theorem executeRoute_bounds (b : ExecuteOrderBody)
    (hin : 32 ≤ b.tokenIn.length ∧ b.tokenIn.length ≤ 44)
    (hout : 32 ≤ b.tokenOut.length ∧ b.tokenOut.length ≤ 44) :
    (executeRouteAccepts b = true ↔
      (1 / 1000000 ≤ b.amountIn ∧
        1 / 10000 ≤ b.slippage.getD (1 / 100) ∧
        b.slippage.getD (1 / 100) ≤ 1 / 2)) ∧
    (executeRouteAccepts b = true → 0 < b.amountIn) ∧
    (b.slippage = none → b.slippage.getD (1 / 100) = 1 / 100) := by
  have hin1 : ¬ (b.tokenIn.length < 32 ∨ 44 < b.tokenIn.length) := by
    omega
  have hout1 : ¬ (b.tokenOut.length < 32 ∨ 44 < b.tokenOut.length) := by
    omega
  have hmain : executeRouteAccepts b = true ↔
      (1 / 1000000 ≤ b.amountIn ∧
        1 / 10000 ≤ b.slippage.getD (1 / 100) ∧
        b.slippage.getD (1 / 100) ≤ 1 / 2) := by
    unfold executeRouteAccepts executeOrderSchemaAccepts
      OrderService.validateOrder OrderService.validateOrderErrors
    simp only [Bool.and_eq_true, decide_eq_true_eq, List.isEmpty_eq_true,
      List.append_eq_nil, hin, hout, hin1, hout1, if_neg, if_true,
      true_and]
    cases hslip : b.slippage with
    | none =>
      simp only [hslip, Option.getD_none, Option.mem_def]
      constructor
      · rintro ⟨⟨h1, -⟩, -⟩
        exact ⟨h1, by norm_num, by norm_num⟩
      · rintro ⟨h1, -, -⟩
        have h0 : (0 : ℚ) < b.amountIn :=
          lt_of_lt_of_le (by norm_num) h1
        refine ⟨⟨h1, by simp⟩, ?_⟩
        norm_num [not_le.mpr h0]
    | some s =>
      simp only [hslip, Option.getD_some, Option.mem_def,
        Option.some.injEq]
      constructor
      · rintro ⟨⟨h1, hs⟩, -⟩
        obtain ⟨hs1, hs2⟩ := hs s rfl
        exact ⟨h1, hs1, hs2⟩
      · rintro ⟨h1, hs1, hs2⟩
        have h0 : (0 : ℚ) < b.amountIn :=
          lt_of_lt_of_le (by norm_num) h1
        have hnos : ¬ (s < 1 / 10000 ∨ 1 / 2 < s) := by
          push_neg
          exact ⟨hs1, hs2⟩
        refine ⟨⟨h1, ?_⟩, ?_⟩
        · intro x hx
          cases hx
          exact ⟨hs1, hs2⟩
        · norm_num [not_le.mpr h0, hnos]
  refine ⟨hmain, ?_, ?_⟩
  · intro hacc
    have h1 := (hmain.mp hacc).1
    linarith [lt_of_lt_of_le (by norm_num : (0:ℚ) < 1 / 1000000) h1]
  · intro hnone
    rw [hnone]
    rfl

def defaultSlippageBody : ExecuteOrderBody :=
  { tokenIn := "So11111111111111111111111111111111111111112"
    tokenOut := "EPjFWdd5AufqSSqeM2qN1xzybapC8G4wEGGkZwyTDt1v"
    amountIn := 5
    slippage := none
    orderType := none }

/-- C7 witness: a concrete request with slippage omitted. -/
theorem executeRoute_bounds_witness :
    (executeRouteAccepts defaultSlippageBody = true ↔
      (1 / 1000000 ≤ defaultSlippageBody.amountIn ∧
        1 / 10000 ≤ defaultSlippageBody.slippage.getD (1 / 100) ∧
        defaultSlippageBody.slippage.getD (1 / 100) ≤ 1 / 2)) ∧
    (executeRouteAccepts defaultSlippageBody = true →
      0 < defaultSlippageBody.amountIn) ∧
    (defaultSlippageBody.slippage = none →
      defaultSlippageBody.slippage.getD (1 / 100) = 1 / 100) :=
  executeRoute_bounds defaultSlippageBody (by decide) (by decide)
